import Mathlib

/-!
Verification of the diet-recommendation service (`app.py`).

The Python source is shallowly embedded as follows:
* Python floats in the request path are modelled as exact rationals `ℚ`
  (all the arithmetic of the pipeline is exact rational arithmetic).
* The opaque pre-trained regression model is an arbitrary function
  `predict : List ℚ → ℚ` (the code only forwards a feature vector to it).
* The randomness consumed by `DataFrame.sample` is an arbitrary oracle
  `pick : ℕ → ℕ`: the n-th random draw of the process is `pick n`, reduced
  modulo the number of remaining rows; sampling without replacement removes
  the chosen row before the next draw.
* Python's `ZeroDivisionError` (raised when the divisor of `/` is zero) and
  the flow `try/except KeyError` of the handler are modelled with explicit
  error values; an exception that no handler catches is the `crashed`
  response (Flask turns it into an HTTP 500, not a structured JSON body).
* The pre-computed `kmeans_cluster` / `meanshift_cluster` columns are
  startup-time dataset enrichment produced by opaque models and are never
  read in the request path, so records carry only the fields the request
  path reads.
-/

/-- One row of `recipes_data` as used by the request path: the `name` column
and the seven nutrition columns split out of the `nutrition` field. -/
structure NutritionRecord where
  name : String
  calories : ℚ
  total_fat_pdv : ℚ
  sugar_pdv : ℚ
  sodium_pdv : ℚ
  protein_pdv : ℚ
  saturated_fat_pdv : ℚ
  carbohydrates_pdv : ℚ
deriving DecidableEq, Repr

/-- The macronutrient-target dictionary returned by `calculate_macronutrients`. -/
structure MacronutrientTargets where
  total_fat : ℚ
  sugar : ℚ
  sodium : ℚ
  protein : ℚ
  saturated_fat : ℚ
  carbohydrates : ℚ
deriving DecidableEq, Repr

/-- `calculate_macronutrients(user_calories)` (app.py lines 43-51). -/
def calculate_macronutrients (user_calories : ℚ) : MacronutrientTargets :=
  { total_fat := (user_calories * 0.30) / 9
    sugar := (user_calories * 0.10) / 4
    sodium := (user_calories * 0.05) / 4
    protein := (user_calories * 0.15) / 4
    saturated_fat := (user_calories * 0.10) / 9
    carbohydrates := (user_calories * 0.30) / 4 }

/-- Python-level runtime errors that can escape the handler. -/
inductive PyError where
  | zeroDivision
deriving DecidableEq, Repr

/-- `adjust_calories_for_goal(calories, weight_goal_kg, weeks)` (app.py lines
54-57).  Python raises `ZeroDivisionError` exactly when the divisor
`weeks * 7` is zero; otherwise it returns
`calories + (7700 * weight_goal_kg) / (weeks * 7)`. -/
def adjust_calories_for_goal (calories weight_goal_kg weeks : ℚ) :
    Except PyError ℚ :=
  if weeks * 7 = 0 then .error .zeroDivision
  else .ok (calories + (7700 * weight_goal_kg) / (weeks * 7))

/-- The `calorie_distribution` dict of `get_food_recommendations` (app.py
lines 62-66), in Python 3.7+ insertion order. -/
def calorie_distribution (target_calories : ℚ) : List (String × ℚ) :=
  [("Breakfast", target_calories * 0.25),
   ("Lunch", target_calories * 0.35),
   ("Dinner", target_calories * 0.40)]

/-- The recipe filter of `get_food_recommendations` (app.py lines 70-77):
the primary filter keeps the rows with
`calories <= meal_calories * 1.2 and calories >= meal_calories * 0.8`;
when it comes back empty the search is broadened once to
`calories <= meal_calories * 1.5 and calories >= meal_calories * 0.5`. -/
def findMatchingRecipes (recipes_data : List NutritionRecord)
    (meal_calories : ℚ) : List NutritionRecord :=
  let filtered_recipes := recipes_data.filter fun r =>
    decide (r.calories ≤ meal_calories * 1.2) &&
    decide (meal_calories * 0.8 ≤ r.calories)
  if filtered_recipes.isEmpty then
    recipes_data.filter fun r =>
      decide (r.calories ≤ meal_calories * 1.5) &&
      decide (meal_calories * 0.5 ≤ r.calories)
  else
    filtered_recipes

/-- `n` draws of `DataFrame.sample` without replacement, starting at position
`step` of the random stream `pick`: each draw removes the chosen row. -/
def sampleN (pick : ℕ → ℕ) : ℕ → ℕ → List NutritionRecord → List NutritionRecord
  | _, 0, _ => []
  | step, n + 1, l =>
    if h : 0 < l.length then
      let i := pick step % l.length
      l.get ⟨i, Nat.mod_lt _ h⟩ :: sampleN pick (step + 1) n (l.eraseIdx i)
    else []

/-- `filtered_recipes.sample(n=min(3, len(filtered_recipes)))` (app.py line
79), consuming the random stream from position `step`. -/
def sampleRecipes (matchList : List NutritionRecord) (pick : ℕ → ℕ)
    (step : ℕ) : List NutritionRecord :=
  sampleN pick step (min 3 matchList.length) matchList

/-- Spec-side restatement of the macronutrient table: each target is
`(calories * pct) / kcal_per_gram` with the table of §4.1. -/
def computeMacronutrientTargetsSpec (c : ℚ) : MacronutrientTargets :=
  { total_fat := (c * 0.30) / 9
    sugar := (c * 0.10) / 4
    sodium := (c * 0.05) / 4
    protein := (c * 0.15) / 4
    saturated_fat := (c * 0.10) / 9
    carbohydrates := (c * 0.30) / 4 }

/-- C1: for `weeks > 0`, `adjust_calories_for_goal` succeeds and returns
`baseline + (7700 * weightGoalKg) / (weeks * 7)`; in particular
`adjustCalories(2000, -5, 10) = 2000 - 550 = 1450`. -/
theorem adjust_calories_formula :
    (∀ baseline weight_goal_kg weeks : ℚ, 0 < weeks →
      adjust_calories_for_goal baseline weight_goal_kg weeks =
        .ok (baseline + (7700 * weight_goal_kg) / (weeks * 7))) ∧
    adjust_calories_for_goal 2000 (-5) 10 = .ok 1450 := by
  constructor
  · intro baseline weight_goal_kg weeks hw
    have h7 : weeks * 7 ≠ 0 := by positivity
    simp [adjust_calories_for_goal, h7]
  · norm_num [adjust_calories_for_goal]

/-- Witness for C1 at `baseline = 2000`, `weightGoalKg = -5`, `weeks = 10`. -/
theorem adjust_calories_formula_witness :
    adjust_calories_for_goal 2000 (-5) 10 =
      .ok (2000 + (7700 * (-5)) / (10 * 7)) :=
  adjust_calories_formula.1 2000 (-5) 10 (by norm_num)

/-- C2: `calculate_macronutrients` computes each target as
`(calories * pct) / kcal_per_gram` with the fixed table, and at 2000 kcal the
targets are 200/3 ≈ 66.67 g fat, 50 g sugar, 25 g sodium, 75 g protein,
200/9 ≈ 22.22 g saturated fat and 150 g carbohydrates. -/
theorem calculate_macronutrients_formula :
    (∀ c : ℚ, calculate_macronutrients c = computeMacronutrientTargetsSpec c) ∧
    calculate_macronutrients 2000 =
      { total_fat := 200 / 3, sugar := 50, sodium := 25, protein := 75,
        saturated_fat := 200 / 9, carbohydrates := 150 } := by
  refine ⟨fun c => rfl, ?_⟩
  simp only [calculate_macronutrients]
  norm_num

/-- C8: the meal budgets are 25% / 35% / 40% of the target in the order
Breakfast, Lunch, Dinner, they always sum back to the target, and at 2000
kcal they are 500 / 700 / 800. -/
theorem calorie_distribution_split :
    (∀ t : ℚ, calorie_distribution t =
      [("Breakfast", 0.25 * t), ("Lunch", 0.35 * t), ("Dinner", 0.40 * t)]) ∧
    (∀ t : ℚ, ((calorie_distribution t).map Prod.snd).sum = t) ∧
    calorie_distribution 2000 =
      [("Breakfast", 500), ("Lunch", 700), ("Dinner", 800)] := by
  refine ⟨fun t => ?_, fun t => ?_, ?_⟩
  · simp only [calorie_distribution]
    norm_num [mul_comm]
  · simp only [calorie_distribution, List.map, List.sum_cons, List.sum_nil]
    ring
  · simp only [calorie_distribution]
    norm_num

/-- C9: a zero weight goal leaves the calories unchanged for every
`weeks > 0`; in particular `adjustCalories(2000, 0, 10) = 2000`. -/
theorem adjust_calories_zero_goal :
    (∀ baseline weeks : ℚ, 0 < weeks →
      adjust_calories_for_goal baseline 0 weeks = .ok baseline) ∧
    adjust_calories_for_goal 2000 0 10 = .ok 2000 := by
  constructor
  · intro baseline weeks hw
    have h7 : weeks * 7 ≠ 0 := by positivity
    simp [adjust_calories_for_goal, h7]
  · norm_num [adjust_calories_for_goal]

/-- Witness for C9 at `baseline = 2000`, `weeks = 10`. -/
theorem adjust_calories_zero_goal_witness :
    adjust_calories_for_goal 2000 0 10 = .ok 2000 :=
  adjust_calories_zero_goal.1 2000 10 (by norm_num)

/-- Spec-side primary window: calories in the closed interval
`[0.8 * m, 1.2 * m]`. -/
def inPrimaryRange (m : ℚ) (r : NutritionRecord) : Prop :=
  0.8 * m ≤ r.calories ∧ r.calories ≤ 1.2 * m

/-- Spec-side fallback window: calories in the closed interval
`[0.5 * m, 1.5 * m]`. -/
def inFallbackRange (m : ℚ) (r : NutritionRecord) : Prop :=
  0.5 * m ≤ r.calories ∧ r.calories ≤ 1.5 * m

instance (m : ℚ) (r : NutritionRecord) : Decidable (inPrimaryRange m r) := by
  unfold inPrimaryRange; infer_instance

instance (m : ℚ) (r : NutritionRecord) : Decidable (inFallbackRange m r) := by
  unfold inFallbackRange; infer_instance

/-- The primary window is contained in the fallback window (for `m < 0` the
primary window is empty, so the inclusion is vacuous there). -/
theorem inFallbackRange_of_inPrimaryRange {m : ℚ} {r : NutritionRecord}
    (h : inPrimaryRange m r) : inFallbackRange m r := by
  obtain ⟨h1, h2⟩ := h
  exact ⟨by linarith, by linarith⟩

/-- The code's primary filter is the filter by the spec's primary window. -/
theorem primary_filter_eq (recipes_data : List NutritionRecord) (m : ℚ) :
    (recipes_data.filter fun r =>
        decide (r.calories ≤ m * 1.2) && decide (m * 0.8 ≤ r.calories)) =
      recipes_data.filter fun r => decide (inPrimaryRange m r) := by
  apply List.filter_congr
  intro r _
  simp [inPrimaryRange, mul_comm, and_comm, Bool.and_comm]

/-- The code's fallback filter is the filter by the spec's fallback window. -/
theorem fallback_filter_eq (recipes_data : List NutritionRecord) (m : ℚ) :
    (recipes_data.filter fun r =>
        decide (r.calories ≤ m * 1.5) && decide (m * 0.5 ≤ r.calories)) =
      recipes_data.filter fun r => decide (inFallbackRange m r) := by
  apply List.filter_congr
  intro r _
  simp [inFallbackRange, mul_comm, and_comm, Bool.and_comm]

/-- C5: `findMatchingRecipes` returns exactly the records in the primary
window `[0.8m, 1.2m]` when that selection is non-empty; exactly when it is
empty the fallback selection `[0.5m, 1.5m]` is returned instead, so every
returned record then lies in `[0.5m, 1.5m]`; and when the fallback selection
is empty too the result is the empty sequence. -/
theorem findMatchingRecipes_ranges (recipes_data : List NutritionRecord) (m : ℚ) :
    ((recipes_data.filter fun r => decide (inPrimaryRange m r)) ≠ [] →
      findMatchingRecipes recipes_data m =
        recipes_data.filter fun r => decide (inPrimaryRange m r)) ∧
    ((recipes_data.filter fun r => decide (inPrimaryRange m r)) = [] →
      findMatchingRecipes recipes_data m =
        recipes_data.filter fun r => decide (inFallbackRange m r)) ∧
    ((recipes_data.filter fun r => decide (inPrimaryRange m r)) = [] →
      ∀ r ∈ findMatchingRecipes recipes_data m, inFallbackRange m r) ∧
    ((recipes_data.filter fun r => decide (inFallbackRange m r)) = [] →
      findMatchingRecipes recipes_data m = []) := by
  have hdef : findMatchingRecipes recipes_data m =
      if (recipes_data.filter fun r => decide (inPrimaryRange m r)).isEmpty then
        recipes_data.filter fun r => decide (inFallbackRange m r)
      else
        recipes_data.filter fun r => decide (inPrimaryRange m r) := by
    unfold findMatchingRecipes
    rw [primary_filter_eq, fallback_filter_eq]
  refine ⟨?_, ?_, ?_, ?_⟩
  · intro hne
    rw [hdef, if_neg (by simpa [List.isEmpty_iff] using hne)]
  · intro hemp
    rw [hdef, if_pos (by simpa [List.isEmpty_iff] using hemp)]
  · intro hemp r hr
    rw [hdef, if_pos (by simpa [List.isEmpty_iff] using hemp)] at hr
    exact of_decide_eq_true (List.mem_filter.mp hr).2
  · intro hfb
    have hemp : (recipes_data.filter fun r => decide (inPrimaryRange m r)) = [] := by
      rw [List.eq_nil_iff_forall_not_mem] at hfb ⊢
      intro r hr
      have hrm := List.mem_filter.mp hr
      exact hfb r (List.mem_filter.mpr
        ⟨hrm.1, decide_eq_true (inFallbackRange_of_inPrimaryRange
          (of_decide_eq_true hrm.2))⟩)
    rw [hdef, if_pos (by simpa [List.isEmpty_iff] using hemp)]
    exact hfb

/-- `sampleN` returns exactly `n` rows when at least `n` rows are available. -/
theorem sampleN_length (pick : ℕ → ℕ) :
    ∀ (n step : ℕ) (l : List NutritionRecord), n ≤ l.length →
      (sampleN pick step n l).length = n := by
  intro n
  induction n with
  | zero => intro step l _; rfl
  | succ k ih =>
    intro step l hn
    have hpos : 0 < l.length := Nat.lt_of_lt_of_le (Nat.succ_pos k) hn
    rw [sampleN, dif_pos hpos]
    have hi : pick step % l.length < l.length := Nat.mod_lt _ hpos
    have herase : (l.eraseIdx (pick step % l.length)).length = l.length - 1 :=
      List.length_eraseIdx_of_lt hi
    have hk : k ≤ (l.eraseIdx (pick step % l.length)).length := by
      rw [herase]; omega
    simp [ih (step + 1) _ hk]

/-- Every row returned by `sampleN` comes from the input list. -/
theorem sampleN_subset (pick : ℕ → ℕ) :
    ∀ (n step : ℕ) (l : List NutritionRecord),
      ∀ r ∈ sampleN pick step n l, r ∈ l := by
  intro n
  induction n with
  | zero => intro step l r hr; simp [sampleN] at hr
  | succ k ih =>
    intro step l r hr
    by_cases hpos : 0 < l.length
    · rw [sampleN, dif_pos hpos] at hr
      rcases List.mem_cons.mp hr with hhd | htl
      · rw [hhd]; exact l.get_mem _ _
      · exact List.eraseIdx_subset _ _ (ih (step + 1) _ r htl)
    · rw [sampleN, dif_neg hpos] at hr
      simp at hr

/-- C6: `sampleRecipes` returns exactly `min(3, |matches|)` rows — hence
never more than 3 and never more than `|matches|` — all of them drawn from
`matches`, and for an empty `matches` it returns the empty sequence. -/
theorem sampleRecipes_spec (matchList : List NutritionRecord) (pick : ℕ → ℕ)
    (step : ℕ) :
    (sampleRecipes matchList pick step).length = min 3 matchList.length ∧
    (∀ r ∈ sampleRecipes matchList pick step, r ∈ matchList) ∧
    (matchList = [] → sampleRecipes matchList pick step = []) := by
  refine ⟨?_, ?_, ?_⟩
  · exact sampleN_length pick _ step matchList (Nat.min_le_right _ _)
  · exact sampleN_subset pick _ step matchList
  · intro hemp
    subst hemp
    rfl

/-- The `nutrition` sub-object of one recommended food (app.py lines 83-91). -/
structure Nutrition where
  calories : ℚ
  total_fat : ℚ
  sugar : ℚ
  sodium : ℚ
  protein : ℚ
  saturated_fat : ℚ
  carbohydrates : ℚ
deriving DecidableEq, Repr

/-- One entry of a meal's `foods` list (app.py lines 80-94). -/
structure FoodEntry where
  name : String
  nutrition : Nutrition
deriving DecidableEq, Repr

/-- One `{"meal": ..., "foods": ...}` entry (app.py line 95). -/
structure MealRec where
  meal : String
  foods : List FoodEntry
deriving DecidableEq, Repr

/-- Formatting of one sampled row into a `foods` entry (app.py lines 80-94). -/
def formatRecipe (r : NutritionRecord) : FoodEntry :=
  { name := r.name
    nutrition :=
      { calories := r.calories
        total_fat := r.total_fat_pdv
        sugar := r.sugar_pdv
        sodium := r.sodium_pdv
        protein := r.protein_pdv
        saturated_fat := r.saturated_fat_pdv
        carbohydrates := r.carbohydrates_pdv } }

/-- The meal loop of `get_food_recommendations` (app.py lines 70-95): for
each `(meal, meal_calories)` pair in order, filter, sample (advancing the
random stream by the number of rows drawn) and format. -/
def assembleMeals (recipes_data : List NutritionRecord) (pick : ℕ → ℕ) :
    ℕ → List (String × ℚ) → List MealRec
  | _, [] => []
  | step, (meal, meal_calories) :: rest =>
    let sampled := sampleRecipes (findMatchingRecipes recipes_data meal_calories)
      pick step
    { meal := meal, foods := sampled.map formatRecipe } ::
      assembleMeals recipes_data pick (step + sampled.length) rest

/-- `get_food_recommendations(target_calories)` (app.py lines 60-97). -/
def get_food_recommendations (recipes_data : List NutritionRecord)
    (pick : ℕ → ℕ) (target_calories : ℚ) : List MealRec :=
  assembleMeals recipes_data pick 0 (calorie_distribution target_calories)

/-- The JSON body of a `/recommend` request (app.py lines 101-104): the
`attributes` object is a dictionary, `weight_goal_kg` and `weeks` are absent
or numeric. -/
structure RecommendRequest where
  attributes : List (String × ℚ)
  weight_goal_kg : Option ℚ
  weeks : Option ℚ

/-- Python dict lookup `attributes[k]` as an `Option` (a missing key raises
`KeyError`, modelled as `none`). -/
def getAttr (attributes : List (String × ℚ)) (k : String) : Option ℚ :=
  (attributes.find? fun p => p.1 == k).map Prod.snd

/-- The eight required attribute keys, in the order the handler reads them
(app.py lines 108-111). -/
def requiredAttributeKeys : List String :=
  ["age", "weight", "height", "BMI", "BMR", "activity_level",
   "gender_F", "gender_M"]

/-- Sequential lookup of a list of keys; the first missing key aborts with
`none` (the `KeyError` of the Python list construction). -/
def lookupAll (attributes : List (String × ℚ)) :
    List String → Option (List ℚ)
  | [] => some []
  | k :: ks =>
    match getAttr attributes k, lookupAll attributes ks with
    | some v, some vs => some (v :: vs)
    | _, _ => none

/-- The `user_features` vector of the handler (app.py lines 108-111):
`[age, weight, height, BMI, BMR, activity_level, gender_F, gender_M]`,
or `none` when any key is missing. -/
def userFeatures (attributes : List (String × ℚ)) : Option (List ℚ) :=
  lookupAll attributes requiredAttributeKeys

/-- The `jsonify({...})` body of a 200 response (app.py lines 123-128). -/
structure SuccessBody where
  recommended_foods : List MealRec
  base_calories : ℚ
  adjusted_calories : ℚ
  macronutrient_targets : MacronutrientTargets
deriving DecidableEq, Repr

/-- Outcome of one `/recommend` request: `ok` is HTTP 200 with the JSON
body, `badRequest` is HTTP 400 with body `{"error": <message>}`, and
`crashed e` is a Python exception that no handler catches (Flask then
produces a generic 500, not a structured JSON error). -/
inductive HttpResponse where
  | ok (body : SuccessBody)
  | badRequest (error : String)
  | crashed (e : PyError)
deriving DecidableEq, Repr

/-- The `/recommend` handler (app.py lines 99-128), parameterised by the
opaque regression model `predict`, the preloaded dataset and the random
stream.  `weight_goal_kg` and `weeks` default to 0 via `data.get(..., 0)`;
only `KeyError` during feature extraction is caught (→ 400); the division
error of `adjust_calories_for_goal` is not caught. -/
def recommend (predict : List ℚ → ℚ) (recipes_data : List NutritionRecord)
    (pick : ℕ → ℕ) (req : RecommendRequest) : HttpResponse :=
  let weight_goal_kg := req.weight_goal_kg.getD 0
  let weeks := req.weeks.getD 0
  match userFeatures req.attributes with
  | none => .badRequest "Missing or incorrect user attribute keys"
  | some user_features =>
    let base_calories := predict user_features
    match adjust_calories_for_goal base_calories weight_goal_kg weeks with
    | .error e => .crashed e
    | .ok adjusted_calories =>
      .ok { recommended_foods := get_food_recommendations recipes_data pick
              adjusted_calories
            base_calories := base_calories
            adjusted_calories := adjusted_calories
            macronutrient_targets := calculate_macronutrients adjusted_calories }

/-- A single missing key makes the whole sequential lookup fail. -/
theorem lookupAll_eq_none (attributes : List (String × ℚ)) (k : String)
    (h : getAttr attributes k = none) :
    ∀ ks : List String, k ∈ ks → lookupAll attributes ks = none := by
  intro ks
  induction ks with
  | nil => intro hk; cases hk
  | cons x xs ih =>
    intro hk
    rcases List.mem_cons.mp hk with rfl | hk
    · rw [lookupAll, h]
    · rw [lookupAll, ih hk]
      cases getAttr attributes x <;> rfl

/-- When all eight keys are present the handler builds the ordered feature
vector `[age, weight, height, BMI, BMR, activity_level, gender_F, gender_M]`. -/
theorem userFeatures_eq_some (attributes : List (String × ℚ))
    (age weight height bmi bmr act gf gm : ℚ)
    (h1 : getAttr attributes "age" = some age)
    (h2 : getAttr attributes "weight" = some weight)
    (h3 : getAttr attributes "height" = some height)
    (h4 : getAttr attributes "BMI" = some bmi)
    (h5 : getAttr attributes "BMR" = some bmr)
    (h6 : getAttr attributes "activity_level" = some act)
    (h7 : getAttr attributes "gender_F" = some gf)
    (h8 : getAttr attributes "gender_M" = some gm) :
    userFeatures attributes =
      some [age, weight, height, bmi, bmr, act, gf, gm] := by
  simp [userFeatures, requiredAttributeKeys, lookupAll,
    h1, h2, h3, h4, h5, h6, h7, h8]

/-- C3: whenever one of the eight required attribute keys is absent, the
handler answers 400 with body exactly
`{"error": "Missing or incorrect user attribute keys"}`, for every model,
dataset and random stream — so no prediction, calorie adjustment or
recommendation assembly influences the response. -/
theorem recommend_missing_key (predict : List ℚ → ℚ)
    (recipes_data : List NutritionRecord) (pick : ℕ → ℕ)
    (req : RecommendRequest) (k : String)
    (hk : k ∈ requiredAttributeKeys)
    (h : getAttr req.attributes k = none) :
    recommend predict recipes_data pick req =
      .badRequest "Missing or incorrect user attribute keys" := by
  have hnone : userFeatures req.attributes = none :=
    lookupAll_eq_none req.attributes k h requiredAttributeKeys hk
  simp [recommend, hnone]

/-- A well-formed attribute dictionary used for concrete checks. -/
def demoAttributes : List (String × ℚ) :=
  [("age", 30), ("weight", 70), ("height", 175), ("BMI", 23),
   ("BMR", 1650), ("activity_level", 2), ("gender_F", 0), ("gender_M", 1)]

/-- `demoAttributes` without the `"age"` entry. -/
def demoAttributesNoAge : List (String × ℚ) :=
  [("weight", 70), ("height", 175), ("BMI", 23),
   ("BMR", 1650), ("activity_level", 2), ("gender_F", 0), ("gender_M", 1)]

/-- Witness for C3: a request missing `"age"` gets the 400 error body. -/
theorem recommend_missing_key_witness :
    recommend (fun _ => 2000) [] (fun _ => 0)
      { attributes := demoAttributesNoAge, weight_goal_kg := some 0,
        weeks := some 1 } =
      .badRequest "Missing or incorrect user attribute keys" :=
  recommend_missing_key (fun _ => 2000) [] (fun _ => 0)
    { attributes := demoAttributesNoAge, weight_goal_kg := some 0,
      weeks := some 1 }
    "age" (by decide) (by decide)

/-- C10: when all eight attribute keys are present but `"weeks"` is absent
from the body, the handler substitutes the default `weeks = 0` (and
`weight_goal_kg` defaults to 0 when absent), reaches the division
`(7700 * weight_goal_kg) / (weeks * 7)` with a zero divisor, and the request
ends in an uncaught `ZeroDivisionError` — not in the 400 validation
response. -/
theorem recommend_missing_weeks_crashes (predict : List ℚ → ℚ)
    (recipes_data : List NutritionRecord) (pick : ℕ → ℕ)
    (attributes : List (String × ℚ)) (wg : Option ℚ)
    (age weight height bmi bmr act gf gm : ℚ)
    (h1 : getAttr attributes "age" = some age)
    (h2 : getAttr attributes "weight" = some weight)
    (h3 : getAttr attributes "height" = some height)
    (h4 : getAttr attributes "BMI" = some bmi)
    (h5 : getAttr attributes "BMR" = some bmr)
    (h6 : getAttr attributes "activity_level" = some act)
    (h7 : getAttr attributes "gender_F" = some gf)
    (h8 : getAttr attributes "gender_M" = some gm) :
    recommend predict recipes_data pick
        { attributes := attributes, weight_goal_kg := wg, weeks := none } =
      .crashed .zeroDivision ∧
    ∀ s, recommend predict recipes_data pick
        { attributes := attributes, weight_goal_kg := wg, weeks := none } ≠
      .badRequest s := by
  have hf := userFeatures_eq_some attributes age weight height bmi bmr act gf gm
    h1 h2 h3 h4 h5 h6 h7 h8
  have hcrash : recommend predict recipes_data pick
      { attributes := attributes, weight_goal_kg := wg, weeks := none } =
      .crashed .zeroDivision := by
    simp [recommend, hf, adjust_calories_for_goal]
  exact ⟨hcrash, fun s => by simp [hcrash]⟩

/-- Witness for C10: omitting `"weeks"` (and `"weight_goal_kg"`) from an
otherwise complete request crashes with a division error. -/
theorem recommend_missing_weeks_crashes_witness :
    recommend (fun _ => 2000) [] (fun _ => 0)
        { attributes := demoAttributes, weight_goal_kg := none,
          weeks := none } =
      .crashed .zeroDivision ∧
    ∀ s, recommend (fun _ => 2000) [] (fun _ => 0)
        { attributes := demoAttributes, weight_goal_kg := none,
          weeks := none } ≠
      .badRequest s :=
  recommend_missing_weeks_crashes (fun _ => 2000) [] (fun _ => 0)
    demoAttributes none 30 70 175 23 1650 2 0 1
    (by decide) (by decide) (by decide) (by decide)
    (by decide) (by decide) (by decide) (by decide)

/-- `sampleRecipes` draws exactly `min(3, |matchList|)` rows. -/
theorem sampleRecipes_length (matchList : List NutritionRecord)
    (pick : ℕ → ℕ) (step : ℕ) :
    (sampleRecipes matchList pick step).length = min 3 matchList.length :=
  sampleN_length pick _ step matchList (Nat.min_le_right _ _)

/-- The assembled plan always lists the meals Breakfast, Lunch, Dinner in
this order. -/
theorem get_food_recommendations_meals (recipes_data : List NutritionRecord)
    (pick : ℕ → ℕ) (t : ℚ) :
    (get_food_recommendations recipes_data pick t).map MealRec.meal =
      ["Breakfast", "Lunch", "Dinner"] := by
  simp [get_food_recommendations, calorie_distribution, assembleMeals]

/-- Every meal of the assembled plan carries at most 3 foods. -/
theorem get_food_recommendations_foods_le (recipes_data : List NutritionRecord)
    (pick : ℕ → ℕ) (t : ℚ) :
    ∀ mr ∈ get_food_recommendations recipes_data pick t,
      mr.foods.length ≤ 3 := by
  intro mr hmr
  simp [get_food_recommendations, calorie_distribution, assembleMeals] at hmr
  rcases hmr with rfl | rfl | rfl <;>
    simp [List.length_map, sampleRecipes_length]

/-- C7: a complete request with `weight_goal_kg = 0` and `weeks = 1` gets a
200 whose `base_calories` is the raw output of the regression model on the
ordered feature vector, whose `adjusted_calories` equals `base_calories`,
and whose `recommended_foods` are exactly the three meals Breakfast, Lunch,
Dinner in order, each with between 0 and 3 foods. -/
theorem recommend_end_to_end (predict : List ℚ → ℚ)
    (recipes_data : List NutritionRecord) (pick : ℕ → ℕ)
    (attributes : List (String × ℚ))
    (age weight height bmi bmr act gf gm : ℚ)
    (h1 : getAttr attributes "age" = some age)
    (h2 : getAttr attributes "weight" = some weight)
    (h3 : getAttr attributes "height" = some height)
    (h4 : getAttr attributes "BMI" = some bmi)
    (h5 : getAttr attributes "BMR" = some bmr)
    (h6 : getAttr attributes "activity_level" = some act)
    (h7 : getAttr attributes "gender_F" = some gf)
    (h8 : getAttr attributes "gender_M" = some gm) :
    ∃ body, recommend predict recipes_data pick
        { attributes := attributes, weight_goal_kg := some 0,
          weeks := some 1 } = .ok body ∧
      body.base_calories =
        predict [age, weight, height, bmi, bmr, act, gf, gm] ∧
      body.adjusted_calories = body.base_calories ∧
      body.recommended_foods.map MealRec.meal =
        ["Breakfast", "Lunch", "Dinner"] ∧
      ∀ mr ∈ body.recommended_foods, mr.foods.length ≤ 3 := by
  have hf := userFeatures_eq_some attributes age weight height bmi bmr act gf gm
    h1 h2 h3 h4 h5 h6 h7 h8
  have hadj : adjust_calories_for_goal
      (predict [age, weight, height, bmi, bmr, act, gf, gm]) 0 1 =
      .ok (predict [age, weight, height, bmi, bmr, act, gf, gm]) := by
    norm_num [adjust_calories_for_goal]
  refine ⟨{ recommended_foods :=
              get_food_recommendations recipes_data pick
                (predict [age, weight, height, bmi, bmr, act, gf, gm]),
            base_calories :=
              predict [age, weight, height, bmi, bmr, act, gf, gm],
            adjusted_calories :=
              predict [age, weight, height, bmi, bmr, act, gf, gm],
            macronutrient_targets :=
              calculate_macronutrients
                (predict [age, weight, height, bmi, bmr, act, gf, gm]) },
    ?_, rfl, rfl, get_food_recommendations_meals _ _ _,
    get_food_recommendations_foods_le _ _ _⟩
  simp [recommend, hf, hadj]

/-- C4 counterexample/defect record: with all eight attribute keys present
and `weeks = 0` the handler does NOT convert the division error into a
structured validation response — the `ZeroDivisionError` escapes uncaught
(Flask then returns a generic 500). -/
theorem recommend_zero_weeks_uncaught :
    recommend (fun _ => 2000) [] (fun _ => 0)
        { attributes := demoAttributes, weight_goal_kg := some (-5),
          weeks := some 0 } =
      .crashed .zeroDivision ∧
    ∀ s, recommend (fun _ => 2000) [] (fun _ => 0)
        { attributes := demoAttributes, weight_goal_kg := some (-5),
          weeks := some 0 } ≠
      .badRequest s := by
  have h : recommend (fun _ => 2000) [] (fun _ => 0)
      { attributes := demoAttributes, weight_goal_kg := some (-5),
        weeks := some 0 } = .crashed .zeroDivision := by
    have hf := userFeatures_eq_some demoAttributes 30 70 175 23 1650 2 0 1
      (by decide) (by decide) (by decide) (by decide)
      (by decide) (by decide) (by decide) (by decide)
    simp [recommend, hf, adjust_calories_for_goal]
  exact ⟨h, fun s => by simp [h]⟩

/-- A recipe at 100 kcal used for concrete checks. -/
def demoRecipe : NutritionRecord :=
  { name := "porridge", calories := 100, total_fat_pdv := 5, sugar_pdv := 10,
    sodium_pdv := 1, protein_pdv := 4, saturated_fat_pdv := 2,
    carbohydrates_pdv := 20 }

/-- A one-recipe dataset used for concrete checks. -/
def demoRecipes : List NutritionRecord := [demoRecipe]

/-- Witness for C5: at `m = 100` the primary selection over `demoRecipes`
is non-empty, and `findMatchingRecipes` returns exactly it. -/
theorem findMatchingRecipes_ranges_witness :
    findMatchingRecipes demoRecipes 100 =
      demoRecipes.filter fun r => decide (inPrimaryRange 100 r) :=
  (findMatchingRecipes_ranges demoRecipes 100).1 (by
    have h : inPrimaryRange 100 demoRecipe := by
      constructor <;> norm_num [demoRecipe]
    simp [demoRecipes, List.filter_cons, h])

/-- Witness for C6: sampling from an empty match list yields the empty
sequence, and from `demoRecipes` it yields `min(3, 1)` rows. -/
theorem sampleRecipes_spec_witness :
    sampleRecipes [] (fun _ => 0) 0 = [] ∧
    (sampleRecipes demoRecipes (fun _ => 0) 0).length =
      min 3 demoRecipes.length :=
  ⟨(sampleRecipes_spec [] (fun _ => 0) 0).2.2 rfl,
   (sampleRecipes_spec demoRecipes (fun _ => 0) 0).1⟩

/-- Witness for C7 on a concrete request over `demoRecipes` with the
constant-2000 regression model. -/
theorem recommend_end_to_end_witness :
    ∃ body, recommend (fun _ => 2000) demoRecipes (fun _ => 0)
        { attributes := demoAttributes, weight_goal_kg := some 0,
          weeks := some 1 } = .ok body ∧
      body.base_calories =
        (fun _ => (2000 : ℚ)) [(30 : ℚ), 70, 175, 23, 1650, 2, 0, 1] ∧
      body.adjusted_calories = body.base_calories ∧
      body.recommended_foods.map MealRec.meal =
        ["Breakfast", "Lunch", "Dinner"] ∧
      ∀ mr ∈ body.recommended_foods, mr.foods.length ≤ 3 :=
  recommend_end_to_end (fun _ => 2000) demoRecipes (fun _ => 0)
    demoAttributes 30 70 175 23 1650 2 0 1
    (by decide) (by decide) (by decide) (by decide)
    (by decide) (by decide) (by decide) (by decide)
